import Mathlib

/-!
Verification of the VideoGen control plane against its specification.

The definitions below are a shallow embedding of the Python sources under
backend/: the pipeline orchestrator (api_gateway/orchestrator.py), the worker
(api_gateway/worker.py), the cost ledger (shared/cost_tracking.py), the rate
limiter (api_gateway/services/rate_limiter.py), the queue service
(api_gateway/services/queue_service.py) and the job routes
(api_gateway/routes/jobs.py).

Modelling conventions:
* Effectful code is embedded as pure functions from an environment (the
  results of broker reads, collaborator invocations and stored totals) to a
  trace of observable operations (`Op`): durable row writes, cache deletions,
  Event Bus publishes, SSE broadcasts and collaborator invocations.
* Store (database) writes are assumed to succeed except inside
  update_progress, whose internal failures the source explicitly swallows and
  which is therefore modelled with per-call failure environments.
* Decimal money amounts are modelled as integers: every monetary constant
  appearing in the modelled code paths (limits 2000/50, estimates 50/100) is
  integral, and the comparisons are order-facts unaffected by the restriction.
* Python exceptions are modelled by `Except`/`ExcKind`.  In the source every
  custom error (BudgetExceededError, RetryableError, ValidationError, ...)
  subclasses PipelineError, which is what the except-clauses in
  execute_pipeline and process_job match on; the embedding reproduces that
  dispatch exactly.
-/

deriving instance DecidableEq for Except

namespace VideoGen

/-- Event types carried on the per-job Event Bus channel
(event_publisher.py, spec section 4.G). -/
inductive EvType
  | progress
  | stageUpdate
  | costUpdate
  | completed
  | error
  | heartbeat
deriving DecidableEq, Repr

/-- Payload of an `error` event as built by handle_pipeline_error and
enforce_budget: the message, the code (None when the raised PipelineError had
no code attribute set) and the retryable flag. -/
structure ErrorPayload where
  error : String
  code : Option String
  retryable : Bool
deriving DecidableEq, Repr

/-- Event payloads, restricted to the fields the claims talk about. -/
inductive EventData
  | progressData (progress : Nat) (stage : String)
  | stageData (stage : String) (status : String)
  | completedData (videoUrl : String)
  | errorData (p : ErrorPayload)
deriving DecidableEq, Repr

/-- One observable operation of the control plane, in execution order. -/
inductive Op
  /-- Write of jobs.status (with jobs.error_message when the update sets it). -/
  | dbStatus (status : String) (errorMessage : Option String)
  /-- Write of jobs.progress and jobs.current_stage (update_progress). -/
  | dbProgress (progress : Nat) (stage : String)
  /-- The final completed row write: status=completed, progress=100,
  current_stage=composer, video_url (orchestrator.py 404-412). -/
  | dbCompleted (videoUrl : String)
  /-- Insert into job_stages (the S3 fallback record). -/
  | dbInsertStage (stage : String) (fallbackMode : Bool)
  /-- Deletion of a cache key. -/
  | cacheDelete (key : String)
  /-- Publish on the job Event Bus channel job_events. -/
  | publish (t : EvType) (d : EventData)
  /-- Direct SSE broadcast (sse_manager.broadcast_event). -/
  | broadcast (t : EvType)
  /-- Invocation of an external stage collaborator module. -/
  | invoke (stage : String)
deriving DecidableEq, Repr

/-! ## Cost ledger (shared/cost_tracking.py) and budget helpers
(api_gateway/services/budget_helpers.py) -/

/-- Ledger state for one job: the job_costs rows and jobs.total_cost. -/
structure LedgerState where
  entries : List (String × String × Int)
  total : Int
deriving DecidableEq, Repr

/-- CostTracker.track_cost (cost_tracking.py 35-108): reject negative cost
with ValidationError; otherwise append a cost entry, read the current total
and write total + cost.  No budget limit is consulted here. -/
def track_cost (st : LedgerState) (stage_name api_name : String) (cost : Int) :
    Except String LedgerState :=
  if cost < 0 then
    Except.error "ValidationError: Cost cannot be negative"
  else
    Except.ok { entries := st.entries ++ [(stage_name, api_name, cost)],
                total := st.total + cost }

/-- CostTracker.get_total_cost (cost_tracking.py 110-136). -/
def get_total_cost (st : LedgerState) : Int := st.total

/-- CostTracker.check_budget (cost_tracking.py 138-169): true when
current_total + new_cost ≤ limit.  current_total is the value read from the
store at the call. -/
def check_budget (current_total new_cost limit : Int) : Bool :=
  current_total + new_cost ≤ limit

/-- The message of the BudgetExceededError raised by enforce_budget_limit. -/
def enforce_budget_msg (limit current_total : Int) : String :=
  "Budget limit of " ++ toString limit ++ " exceeded. Current total: " ++
    toString current_total

/-- CostTracker.enforce_budget_limit (cost_tracking.py 171-212): raises
BudgetExceededError exactly when the stored total is strictly above the
limit. -/
def enforce_budget_limit (current_total limit : Int) : Except String Unit :=
  if current_total > limit then
    Except.error (enforce_budget_msg limit current_total)
  else
    Except.ok ()

/-- get_budget_limit (budget_helpers.py 11-30): 2000 in production and
staging, 50 otherwise (development default). -/
def get_budget_limit (environment : String) : Int :=
  if environment = "production" ∨ environment = "staging" then 2000 else 50

/-- One track_cost request against the ledger. -/
structure LedgerOp where
  stage_name : String
  api_name : String
  cost : Int
deriving DecidableEq, Repr

/-- Sequential application of track_cost calls; a ValidationError leaves the
ledger unchanged. -/
def apply_ledger_ops (st : LedgerState) (ops : List LedgerOp) : LedgerState :=
  match ops with
  | [] => st
  | o :: rest =>
    match track_cost st o.stage_name o.api_name o.cost with
    | Except.ok st2 => apply_ledger_ops st2 rest
    | Except.error _ => apply_ledger_ops st rest

/-! ## Rate limiter (api_gateway/services/rate_limiter.py) -/

/-- zremrangebyscore on the rate-limit sorted set: drop every entry whose
score lies in [lo, hi]. -/
def zremrangebyscore (entries : List Int) (lo hi : Int) : List Int :=
  entries.filter (fun s => ! (decide (lo ≤ s ∧ s ≤ hi)))

/-- check_rate_limit (rate_limiter.py 18-92), sequential broker semantics,
broker reachable.  The sorted set rate_limit is modelled by its list of
scores; the member of each entry is the decimal string of its score
(zadd(key, str(now): now)), so adding a timestamp that is already present
leaves the set unchanged.  Returns the new set contents, and the retry_after
of the RateLimitError on rejection (none on admission).  The TTL refresh and
the fail-open/fail-closed broker-failure branches are not modelled. -/
def check_rate_limit (entries : List Int) (now : Int) : List Int × Option Int :=
  let pruned := zremrangebyscore entries 0 (now - 3600)
  if 5 ≤ pruned.length then
    let retry_after : Int :=
      match pruned.min? with
      | some oldest => 3600 - (now - oldest)
      | none => 3600
    (pruned, some retry_after)
  else
    let after_add := if now ∈ pruned then pruned else pruned ++ [now]
    (after_add, none)

/-- Run a sequence of admission attempts; returns the final set and the
number of successful admissions. -/
def run_rate_limit (entries : List Int) (times : List Int) : List Int × Nat :=
  match times with
  | [] => (entries, 0)
  | t :: ts =>
    let r := check_rate_limit entries t
    let rest := run_rate_limit r.1 ts
    (rest.1, (if r.2 = none then 1 else 0) + rest.2)

/-! ## Queue removal and cancellation (queue_service.py, routes/jobs.py) -/

/-- The per-job control state touched by cancellation: the jobs row fields,
the queue payload key, the cancellation marker and the status cache entry
(TTLs are not modelled). -/
structure JobControlState where
  status : String
  error_message : Option String
  payload_key : Bool
  cancel_marker : Bool
  status_cache : Bool
deriving DecidableEq, Repr

/-- remove_job (queue_service.py 59-80): delete the payload key
video_generation:job and report True.  The queue list entry is untouched. -/
def remove_job (s : JobControlState) : JobControlState × Bool :=
  ({ s with payload_key := false }, true)

/-- Outcome of the cancel endpoint. -/
inductive CancelOutcome
  | ok (status message : String)
  | httpError (code : Nat) (detail : String)
deriving DecidableEq, Repr

/-- cancel_job (routes/jobs.py 134-200), after ownership has been verified:
rejected with 400 unless status is queued or processing; queued deletes the
payload key, processing sets the cancellation marker (15-minute TTL not
modelled); both mark the row failed with the cancellation message and
invalidate the status cache. -/
def cancel_job (s : JobControlState) : JobControlState × CancelOutcome :=
  if ¬ (s.status = "queued" ∨ s.status = "processing") then
    (s, CancelOutcome.httpError 400 ("Cannot cancel job with status: " ++ s.status))
  else
    let s1 :=
      if s.status = "queued" then
        let removed := (remove_job s).1
        { removed with status := "failed",
                       error_message := some "Job cancelled by user" }
      else
        { s with cancel_marker := true, status := "failed",
                 error_message := some "Job cancelled by user" }
    ({ s1 with status_cache := false },
     CancelOutcome.ok "failed" "Job cancelled by user")

/-! ## List jobs (routes/jobs.py 62-131) -/

/-- A jobs row as needed for pagination; created_at is modelled by a natural
number preserving the (ISO-8601 string) order the source sorts by. -/
structure JobRow where
  id : Nat
  created_at : Nat
deriving DecidableEq, Repr

/-- Response shape of the list endpoint. -/
structure ListJobsResponse where
  jobs : List JobRow
  total : Nat
  limit : Nat
  offset : Nat
deriving DecidableEq, Repr

/-- all_jobs.sort(key=created_at, reverse=True): stable descending sort. -/
def sort_desc (l : List JobRow) : List JobRow :=
  l.insertionSort (fun a b => b.created_at ≤ a.created_at)

instance : IsTotal JobRow (fun a b => b.created_at ≤ a.created_at) :=
  ⟨fun a b => Nat.le_total b.created_at a.created_at⟩

instance : IsTrans JobRow (fun a b => b.created_at ≤ a.created_at) :=
  ⟨fun _ _ _ hab hbc => le_trans hbc hab⟩

/-- list_jobs (routes/jobs.py 62-131): `rows` is the list of the calling
user's rows (already equality-filtered by user_id and the validated optional
status) in the order the store returns them — the query carries no ordering.
The source fetches only limit + offset rows, sorts that subset in memory by
created_at descending and slices [offset, offset+limit). -/
def list_jobs (rows : List JobRow) (total limit offset : Nat) : ListJobsResponse :=
  let fetched := rows.take (limit + offset)
  let sorted := sort_desc fetched
  { jobs := (sorted.drop offset).take limit,
    total := total, limit := limit, offset := offset }

/-- Modelled from the spec (section 4.K): the returned page equals rows
[offset, offset+limit) of the full descending created_at order of all of the
user's (filtered) rows.  Comparison definition for the refinement claim. -/
def spec_list_jobs_page (rows : List JobRow) (limit offset : Nat) : List JobRow :=
  ((sort_desc rows).drop offset).take limit

/-! ## Orchestrator (api_gateway/orchestrator.py) and worker
(api_gateway/worker.py) -/

/-- The kind of exception propagating out of a stage block, matching the
source exception classes.  retryableE, pipelineE and budgetE carry the value
of the code attribute (None unless set at construction); a genericE is any
exception that is not a PipelineError subclass. -/
inductive ExcKind
  | retryableE (msg : String) (code : Option String)
  | pipelineE (msg : String) (code : Option String)
  | budgetE (msg : String) (code : Option String)
  | genericE (msg : String)
deriving DecidableEq, Repr

/-- str(error). -/
def excMsg : ExcKind → String
  | ExcKind.retryableE m _ => m
  | ExcKind.pipelineE m _ => m
  | ExcKind.budgetE m _ => m
  | ExcKind.genericE m => m

/-- Result of one collaborator module call site: the call succeeded, the
module import failed (ImportError caught, stub substituted, collaborator not
invoked), or the invoked collaborator raised. -/
inductive ModResult
  | ok
  | importError
  | raised (k : ExcKind)
deriving DecidableEq, Repr

/-- check_cancellation (orchestrator.py 32-48): read the job_cancel marker;
a broker failure is logged and reported as not cancelled. -/
def check_cancellation (read : Except String (Option String)) : Bool :=
  match read with
  | Except.ok v => v.isSome
  | Except.error _ => false

/-- Results of the four awaited sub-operations inside one update_progress
call: the jobs-row write, the status-cache deletion, the Event Bus publish
and the SSE broadcast. -/
structure UpdateProgressEnv where
  db_write : Except String Unit
  cache_delete : Except String Unit
  publish_ev : Except String Unit
  broadcast_ev : Except String Unit
deriving DecidableEq, Repr

/-- update_progress (orchestrator.py 51-88): the whole body runs inside
try/except Exception, so the first failing sub-operation ends the call with
the error logged and swallowed; the operations performed before the failure
stand.  Returns the recorded operations and the outcome of the call. -/
def update_progress (progress : Nat) (stage : String) (e : UpdateProgressEnv) :
    List Op × Except String Unit :=
  match e.db_write with
  | Except.error _ => ([], Except.ok ())
  | Except.ok _ =>
    let t1 := [Op.dbProgress progress stage]
    match e.cache_delete with
    | Except.error _ => (t1, Except.ok ())
    | Except.ok _ =>
      let t2 := t1 ++ [Op.cacheDelete "job_status"]
      match e.publish_ev with
      | Except.error _ => (t2, Except.ok ())
      | Except.ok _ =>
        let t3 := t2 ++ [Op.publish EvType.progress (EventData.progressData progress stage)]
        match e.broadcast_ev with
        | Except.error _ => (t3, Except.ok ())
        | Except.ok _ => (t3 ++ [Op.broadcast EvType.progress], Except.ok ())

/-- handle_pipeline_error (orchestrator.py 112-155): write status=failed with
error_message=str(error), invalidate the status cache, publish the error
event.  code is BUDGET_EXCEEDED for a BudgetExceededError, else the code
attribute of the PipelineError (None unless set), else the getattr default
MODULE_FAILURE; retryable only for RetryableError.  Its own sub-operations
are assumed to succeed (its try/except would swallow their failures). -/
def handle_pipeline_error (k : ExcKind) : List Op :=
  let code : Option String :=
    match k with
    | ExcKind.budgetE _ _ => some "BUDGET_EXCEEDED"
    | ExcKind.retryableE _ c => c
    | ExcKind.pipelineE _ c => c
    | ExcKind.genericE _ => some "MODULE_FAILURE"
  let retryable : Bool :=
    match k with
    | ExcKind.retryableE _ _ => true
    | _ => false
  [Op.dbStatus "failed" (some (excMsg k)),
   Op.cacheDelete "job_status",
   Op.publish EvType.error (EventData.errorData ⟨excMsg k, code, retryable⟩)]

/-- The inline cancellation abort: handle_pipeline_error applied to
PipelineError with the cancellation message (orchestrator.py 180-182 etc). -/
def cancel_abort_ops : List Op :=
  handle_pipeline_error (ExcKind.pipelineE "Job cancelled by user" none)

/-- Outcome of one stage block inside execute_pipeline. -/
inductive SegOut
  | proceed
  | cancelled
  | raised (k : ExcKind)
deriving DecidableEq, Repr

/-- The stage_update started publish opening each stage block. -/
def stage_started (stage : String) : List Op :=
  [Op.publish EvType.stageUpdate (EventData.stageData stage "started")]

/-- The stage_update completed publish closing a stage block. -/
def stage_completed (stage : String) : List Op :=
  [Op.publish EvType.stageUpdate (EventData.stageData stage "completed")]

/-- Collaborator call at a stage: an ImportError means the stub is used and
the collaborator is never invoked. -/
def module_ops (stage : String) (m : ModResult) : List Op :=
  match m with
  | ModResult.importError => []
  | _ => [Op.invoke stage]

/-- The shared stage shape of S1 audio_parser (orchestrator.py 174-213),
S2 scene_planner (215-243) and S4 prompt_generator (294-328): publish
started, cancellation pre-check, collaborator call, update_progress, publish
completed. -/
def simple_stage (stage : String) (cancel : Except String (Option String))
    (m : ModResult) (progress : Nat) (u : UpdateProgressEnv) : List Op × SegOut :=
  let hdr := stage_started stage
  if check_cancellation cancel then
    (hdr, SegOut.cancelled)
  else
    match m with
    | ModResult.raised k => (hdr ++ [Op.invoke stage], SegOut.raised k)
    | _ =>
      (hdr ++ module_ops stage m ++ (update_progress progress stage u).1 ++
        stage_completed stage, SegOut.proceed)

/-- Stage S3 reference_generator (orchestrator.py 245-292): started publish,
cancellation pre-check, check_budget with estimate 50 (raise
BudgetExceededError when it would exceed), degradable collaborator call (a
raise records the fallback job_stages row and proceeds with references=None),
update_progress(30), completed publish, then enforce_budget (90-109), which
publishes the error event itself before re-raising.  total_check and
total_enforce are the totals read from the store at the two checkpoints. -/
def reference_stage (cancel : Except String (Option String)) (environment : String)
    (total_check total_enforce : Int) (m : ModResult) (u : UpdateProgressEnv) :
    List Op × SegOut :=
  let hdr := stage_started "reference_generator"
  if check_cancellation cancel then
    (hdr, SegOut.cancelled)
  else if ! check_budget total_check 50 (get_budget_limit environment) then
    (hdr, SegOut.raised
      (ExcKind.budgetE "Would exceed budget limit before reference generation" none))
  else
    let mops :=
      match m with
      | ModResult.ok => [Op.invoke "reference_generator"]
      | ModResult.importError => []
      | ModResult.raised _ =>
        [Op.invoke "reference_generator", Op.dbInsertStage "reference_generator" true]
    let base := hdr ++ mops ++ (update_progress 30 "reference_generator" u).1 ++
      stage_completed "reference_generator"
    match enforce_budget_limit total_enforce (get_budget_limit environment) with
    | Except.error msg =>
      (base ++ [Op.publish EvType.error
         (EventData.errorData ⟨msg, some "BUDGET_EXCEEDED", false⟩)],
       SegOut.raised (ExcKind.budgetE msg (some "BUDGET_EXCEEDED")))
    | Except.ok _ => (base, SegOut.proceed)

/-- Stage S5 video_generator (orchestrator.py 330-369): started publish,
cancellation pre-check, check_budget with estimate 100, collaborator call
(the stub produced on ImportError holds a single clip), the minimum-clips
validation raising PipelineError when fewer than 3 clips were produced,
update_progress(85), completed publish, then enforce_budget. -/
def video_stage (cancel : Except String (Option String)) (environment : String)
    (total_check total_enforce : Int) (m : ModResult) (clip_count : Nat)
    (u : UpdateProgressEnv) : List Op × SegOut :=
  let hdr := stage_started "video_generator"
  if check_cancellation cancel then
    (hdr, SegOut.cancelled)
  else if ! check_budget total_check 100 (get_budget_limit environment) then
    (hdr, SegOut.raised
      (ExcKind.budgetE "Would exceed budget limit before video generation" none))
  else
    match m with
    | ModResult.raised k => (hdr ++ [Op.invoke "video_generator"], SegOut.raised k)
    | _ =>
      let clips := match m with | ModResult.ok => clip_count | _ => 1
      let mops := module_ops "video_generator" m
      if clips < 3 then
        (hdr ++ mops,
         SegOut.raised
           (ExcKind.pipelineE "Insufficient clips generated (minimum 3 required)" none))
      else
        let base := hdr ++ mops ++ (update_progress 85 "video_generator" u).1 ++
          stage_completed "video_generator"
        match enforce_budget_limit total_enforce (get_budget_limit environment) with
        | Except.error msg =>
          (base ++ [Op.publish EvType.error
             (EventData.errorData ⟨msg, some "BUDGET_EXCEEDED", false⟩)],
           SegOut.raised (ExcKind.budgetE msg (some "BUDGET_EXCEEDED")))
        | Except.ok _ => (base, SegOut.proceed)

/-- Stage S6 composer (orchestrator.py 371-424): started publish,
cancellation pre-check, compose (stub video url on ImportError), then the
completed row write, status-cache invalidation, a final update_progress(100)
and the completed event.  No stage_update completed is published for S6. -/
def composer_stage (cancel : Except String (Option String)) (m : ModResult)
    (video_url : String) (u : UpdateProgressEnv) : List Op × SegOut :=
  let hdr := stage_started "composer"
  if check_cancellation cancel then
    (hdr, SegOut.cancelled)
  else
    match m with
    | ModResult.raised k => (hdr ++ [Op.invoke "composer"], SegOut.raised k)
    | _ =>
      let url := match m with | ModResult.ok => video_url | _ => "stub_final_video_url"
      (hdr ++ module_ops "composer" m ++
        (Op.dbCompleted url :: Op.cacheDelete "job_status" ::
          ((update_progress 100 "composer" u).1 ++
           [Op.publish EvType.completed (EventData.completedData url)])),
       SegOut.proceed)

/-- The environment of one execute_pipeline run: the broker reads at the six
cancellation checkpoints, the six collaborator outcomes, the clip count of a
successful S5, the totals read from the store at the four budget checkpoints,
and the sub-operation results of the six update_progress calls. -/
structure PipelineEnv where
  environment : String
  cancel1 : Except String (Option String)
  cancel2 : Except String (Option String)
  cancel3 : Except String (Option String)
  cancel4 : Except String (Option String)
  cancel5 : Except String (Option String)
  cancel6 : Except String (Option String)
  mod1 : ModResult
  mod2 : ModResult
  mod3 : ModResult
  mod4 : ModResult
  mod5 : ModResult
  mod6 : ModResult
  clip_count : Nat
  total3_check : Int
  total3_enforce : Int
  total5_check : Int
  total5_enforce : Int
  up1 : UpdateProgressEnv
  up2 : UpdateProgressEnv
  up3 : UpdateProgressEnv
  up4 : UpdateProgressEnv
  up5 : UpdateProgressEnv
  up6 : UpdateProgressEnv
  video_url : String
deriving DecidableEq, Repr

/-- The body of execute_pipeline (orchestrator.py 158-424) without the outer
except clauses: the processing status write, then the six stage blocks in
sequence.  A cancellation hit calls handle_pipeline_error inline and returns
normally; a raise propagates to the wrapper. -/
def execute_pipeline_body (e : PipelineEnv) : List Op × Except ExcKind Unit :=
  let start := [Op.dbStatus "processing" none]
  let s1 := simple_stage "audio_parser" e.cancel1 e.mod1 10 e.up1
  match s1.2 with
  | SegOut.cancelled => (start ++ s1.1 ++ cancel_abort_ops, Except.ok ())
  | SegOut.raised k => (start ++ s1.1, Except.error k)
  | SegOut.proceed =>
    let s2 := simple_stage "scene_planner" e.cancel2 e.mod2 20 e.up2
    match s2.2 with
    | SegOut.cancelled => (start ++ s1.1 ++ s2.1 ++ cancel_abort_ops, Except.ok ())
    | SegOut.raised k => (start ++ s1.1 ++ s2.1, Except.error k)
    | SegOut.proceed =>
      let s3 := reference_stage e.cancel3 e.environment e.total3_check
        e.total3_enforce e.mod3 e.up3
      match s3.2 with
      | SegOut.cancelled =>
        (start ++ s1.1 ++ s2.1 ++ s3.1 ++ cancel_abort_ops, Except.ok ())
      | SegOut.raised k => (start ++ s1.1 ++ s2.1 ++ s3.1, Except.error k)
      | SegOut.proceed =>
        let s4 := simple_stage "prompt_generator" e.cancel4 e.mod4 40 e.up4
        match s4.2 with
        | SegOut.cancelled =>
          (start ++ s1.1 ++ s2.1 ++ s3.1 ++ s4.1 ++ cancel_abort_ops, Except.ok ())
        | SegOut.raised k => (start ++ s1.1 ++ s2.1 ++ s3.1 ++ s4.1, Except.error k)
        | SegOut.proceed =>
          let s5 := video_stage e.cancel5 e.environment e.total5_check
            e.total5_enforce e.mod5 e.clip_count e.up5
          match s5.2 with
          | SegOut.cancelled =>
            (start ++ s1.1 ++ s2.1 ++ s3.1 ++ s4.1 ++ s5.1 ++ cancel_abort_ops,
             Except.ok ())
          | SegOut.raised k =>
            (start ++ s1.1 ++ s2.1 ++ s3.1 ++ s4.1 ++ s5.1, Except.error k)
          | SegOut.proceed =>
            let s6 := composer_stage e.cancel6 e.mod6 e.video_url e.up6
            match s6.2 with
            | SegOut.cancelled =>
              (start ++ s1.1 ++ s2.1 ++ s3.1 ++ s4.1 ++ s5.1 ++ s6.1 ++
                cancel_abort_ops, Except.ok ())
            | SegOut.raised k =>
              (start ++ s1.1 ++ s2.1 ++ s3.1 ++ s4.1 ++ s5.1 ++ s6.1,
               Except.error k)
            | SegOut.proceed =>
              (start ++ s1.1 ++ s2.1 ++ s3.1 ++ s4.1 ++ s5.1 ++ s6.1,
               Except.ok ())

/-- execute_pipeline (orchestrator.py 158-432) with the outer except clauses
(426-432): a BudgetExceededError or PipelineError (hence also every subclass,
including RetryableError) is passed to handle_pipeline_error and re-raised;
any other exception is wrapped in PipelineError for the handler while the
original exception is re-raised. -/
def execute_pipeline (e : PipelineEnv) : List Op × Except ExcKind Unit :=
  let body := execute_pipeline_body e
  match body.2 with
  | Except.ok _ => body
  | Except.error (ExcKind.genericE msg) =>
    (body.1 ++ handle_pipeline_error
       (ExcKind.pipelineE ("Pipeline execution failed: " ++ msg) none),
     Except.error (ExcKind.genericE msg))
  | Except.error k => (body.1 ++ handle_pipeline_error k, Except.error k)

/-- Environment of one process_job call: the broker read of the cancellation
marker at the worker pre-check, and the pipeline environment. -/
structure WorkerEnv where
  cancel_read : Except String (Option String)
  pipe : PipelineEnv
deriving DecidableEq, Repr

/-- process_job (worker.py 26-73): pre-check the cancellation marker (a
broker failure there raises RetryableError, which the first except clause
absorbs because RetryableError subclasses PipelineError); on a present marker
the job is marked failed and the pipeline is skipped; otherwise the pipeline
runs, BudgetExceededError/PipelineError (hence also RetryableError) escaping
it are absorbed, and any other exception marks the job failed a second
time. -/
def process_job (w : WorkerEnv) : List Op :=
  match w.cancel_read with
  | Except.error _ => []
  | Except.ok (some _) => [Op.dbStatus "failed" (some "Job cancelled by user")]
  | Except.ok none =>
    let r := execute_pipeline w.pipe
    match r.2 with
    | Except.ok _ => r.1
    | Except.error (ExcKind.genericE msg) =>
      r.1 ++ [Op.dbStatus "failed" (some ("Unexpected error: " ++ msg))]
    | Except.error _ => r.1

/-! ## Trace observations -/

/-- A write of jobs.status = failed. -/
def isFailedWrite : Op → Bool
  | Op.dbStatus s _ => s == "failed"
  | _ => false

/-- A write of a terminal jobs.status (failed, or the completed row write). -/
def isTerminalWrite : Op → Bool
  | Op.dbStatus s _ => s == "failed"
  | Op.dbCompleted _ => true
  | _ => false

/-- Number of status=failed row writes in a trace. -/
def failed_writes (t : List Op) : Nat := (t.filter isFailedWrite).length

/-- The types of the Event Bus publishes of a trace, in order. -/
def pub_types (t : List Op) : List EvType :=
  t.filterMap (fun o => match o with | Op.publish ty _ => some ty | _ => none)

/-- The operations strictly after the first terminal status write. -/
def after_first_terminal (t : List Op) : List Op :=
  match t.dropWhile (fun o => ! isTerminalWrite o) with
  | [] => []
  | _ :: rest => rest

/-- No terminal status write occurs in the trace. -/
def no_terminal (t : List Op) : Bool := t.all (fun o => ! isTerminalWrite o)

/-- The progress values written to the jobs row, in order (update_progress
writes and the progress=100 of the completed row write). -/
def progress_writes (t : List Op) : List Nat :=
  t.filterMap (fun o =>
    match o with
    | Op.dbProgress p _ => some p
    | Op.dbCompleted _ => some 100
    | _ => none)

/-- The progress write one update_progress call performs: present exactly
when its jobs-row write succeeded. -/
def pw_up (u : UpdateProgressEnv) (p : Nat) : List Nat :=
  match u.db_write with
  | Except.ok _ => [p]
  | Except.error _ => []

/-- An update-progress environment with every sub-operation succeeding. -/
def up_all_ok : UpdateProgressEnv :=
  ⟨Except.ok (), Except.ok (), Except.ok (), Except.ok ()⟩

/-- A pipeline environment driving a clean success: no cancellation marker,
stub modules except a three-clip S5, zero stored totals, every
update_progress sub-operation succeeding, production environment. -/
def env_success : PipelineEnv :=
  { environment := "production"
    cancel1 := Except.ok none, cancel2 := Except.ok none, cancel3 := Except.ok none
    cancel4 := Except.ok none, cancel5 := Except.ok none, cancel6 := Except.ok none
    mod1 := ModResult.importError, mod2 := ModResult.importError
    mod3 := ModResult.importError, mod4 := ModResult.importError
    mod5 := ModResult.ok, mod6 := ModResult.importError
    clip_count := 3
    total3_check := 0, total3_enforce := 0, total5_check := 0, total5_enforce := 0
    up1 := up_all_ok, up2 := up_all_ok, up3 := up_all_ok
    up4 := up_all_ok, up5 := up_all_ok, up6 := up_all_ok
    video_url := "url" }

/-- env_success with the composer collaborator raising an exception that is
not a PipelineError subclass. -/
def env_generic_failure : PipelineEnv :=
  { env_success with mod6 := ModResult.raised (ExcKind.genericE "boom") }

/-- env_success with a stored total of 1999 at the S5 budget pre-check
(production limit 2000, S5 estimate 100). -/
def env_budget_stop : PipelineEnv :=
  { env_success with total5_check := 1999 }

/-- env_success with S5 succeeding but producing a single clip. -/
def env_few_clips : PipelineEnv :=
  { env_success with clip_count := 1 }

/-- The store order of a two-row counterexample for the list endpoint:
the older row first. -/
def c8_rows : List JobRow := [⟨1, 1⟩, ⟨2, 2⟩]

/-! ## Trace lemmas -/

theorem isTerminal_of_isFailed {o : Op} (h : isFailedWrite o = true) :
    isTerminalWrite o = true := by
  cases o <;> simp_all [isFailedWrite, isTerminalWrite]

theorem no_terminal_nil : no_terminal [] = true := rfl

theorem no_terminal_cons (o : Op) (t : List Op) :
    no_terminal (o :: t) = (! isTerminalWrite o && no_terminal t) := by
  simp [no_terminal]

theorem no_terminal_append (a b : List Op) :
    no_terminal (a ++ b) = (no_terminal a && no_terminal b) := by
  simp [no_terminal, List.all_append]

theorem failed_writes_append (a b : List Op) :
    failed_writes (a ++ b) = failed_writes a + failed_writes b := by
  simp [failed_writes, List.filter_append]

theorem failed_writes_of_no_terminal {t : List Op} (h : no_terminal t = true) :
    failed_writes t = 0 := by
  induction t with
  | nil => rfl
  | cons o t ih =>
    rw [no_terminal_cons, Bool.and_eq_true] at h
    have ho : isFailedWrite o = false := by
      cases hf : isFailedWrite o
      · rfl
      · exact absurd (isTerminal_of_isFailed hf) (by simpa using h.1)
    simpa [failed_writes, List.filter_cons, ho] using ih h.2

theorem pub_types_append (a b : List Op) :
    pub_types (a ++ b) = pub_types a ++ pub_types b := by
  simp [pub_types, List.filterMap_append]

theorem progress_writes_append (a b : List Op) :
    progress_writes (a ++ b) = progress_writes a ++ progress_writes b := by
  simp [progress_writes, List.filterMap_append]

theorem after_first_terminal_cons_terminal {o : Op} (t : List Op)
    (h : isTerminalWrite o = true) : after_first_terminal (o :: t) = t := by
  simp [after_first_terminal, List.dropWhile_cons, h]

theorem after_first_terminal_append {a : List Op} (b : List Op)
    (h : no_terminal a = true) :
    after_first_terminal (a ++ b) = after_first_terminal b := by
  induction a with
  | nil => simp
  | cons o t ih =>
    rw [no_terminal_cons, Bool.and_eq_true] at h
    have h1 : isTerminalWrite o = false := by simpa using h.1
    simpa [after_first_terminal, List.dropWhile_cons, h1] using ih h.2

/-! ## update_progress and handler lemmas -/

theorem update_progress_never_raises (p : Nat) (s : String) (u : UpdateProgressEnv) :
    (update_progress p s u).2 = Except.ok () := by
  cases h1 : u.db_write <;> cases h2 : u.cache_delete <;>
    cases h3 : u.publish_ev <;> cases h4 : u.broadcast_ev <;>
    simp [update_progress, h1, h2, h3, h4]

theorem no_terminal_update_progress (p : Nat) (s : String) (u : UpdateProgressEnv) :
    no_terminal (update_progress p s u).1 = true := by
  cases h1 : u.db_write <;> cases h2 : u.cache_delete <;>
    cases h3 : u.publish_ev <;> cases h4 : u.broadcast_ev <;>
    simp [update_progress, h1, h2, h3, h4, no_terminal, isTerminalWrite]

theorem progress_writes_update_progress (p : Nat) (s : String) (u : UpdateProgressEnv) :
    progress_writes (update_progress p s u).1 = pw_up u p := by
  cases h1 : u.db_write <;> cases h2 : u.cache_delete <;>
    cases h3 : u.publish_ev <;> cases h4 : u.broadcast_ev <;>
    simp [update_progress, h1, h2, h3, h4, progress_writes, pw_up]

theorem pub_types_update_progress (p : Nat) (s : String) (u : UpdateProgressEnv) :
    pub_types (update_progress p s u).1 = [] ∨
    pub_types (update_progress p s u).1 = [EvType.progress] := by
  cases h1 : u.db_write <;> cases h2 : u.cache_delete <;>
    cases h3 : u.publish_ev <;> cases h4 : u.broadcast_ev <;>
    simp [update_progress, h1, h2, h3, h4, pub_types]

theorem failed_writes_handle (k : ExcKind) :
    failed_writes (handle_pipeline_error k) = 1 := by
  simp [handle_pipeline_error, failed_writes, List.filter, isFailedWrite]

theorem pub_types_after_handle (k : ExcKind) :
    pub_types (after_first_terminal (handle_pipeline_error k)) = [EvType.error] := by
  simp [handle_pipeline_error, after_first_terminal, List.dropWhile_cons,
    isTerminalWrite, pub_types]

/-! ## Stage segment lemmas -/

theorem nt_stage_started (s : String) : no_terminal (stage_started s) = true := rfl

theorem nt_stage_completed (s : String) : no_terminal (stage_completed s) = true := rfl

theorem nt_module_ops (s : String) (m : ModResult) :
    no_terminal (module_ops s m) = true := by cases m <;> rfl

theorem pw_stage_started (s : String) : progress_writes (stage_started s) = [] := rfl

theorem pw_stage_completed (s : String) : progress_writes (stage_completed s) = [] := rfl

theorem pw_module_ops (s : String) (m : ModResult) :
    progress_writes (module_ops s m) = [] := by cases m <;> rfl

theorem nt_invoke (s : String) : no_terminal [Op.invoke s] = true := rfl

theorem nt_publish_single (t : EvType) (d : EventData) :
    no_terminal [Op.publish t d] = true := rfl

theorem nt_fallback_pair (s s2 : String) (b : Bool) :
    no_terminal [Op.invoke s, Op.dbInsertStage s2 b] = true := rfl

theorem pw_invoke (s : String) : progress_writes [Op.invoke s] = [] := rfl

theorem pw_publish_single (t : EvType) (d : EventData) :
    progress_writes [Op.publish t d] = [] := rfl

theorem pw_fallback_pair (s s2 : String) (b : Bool) :
    progress_writes [Op.invoke s, Op.dbInsertStage s2 b] = [] := rfl

theorem itw_invoke (s : String) : isTerminalWrite (Op.invoke s) = false := rfl

theorem itw_publish (t : EvType) (d : EventData) :
    isTerminalWrite (Op.publish t d) = false := rfl

theorem itw_insert (s : String) (b : Bool) :
    isTerminalWrite (Op.dbInsertStage s b) = false := rfl

theorem itw_cacheDelete (k : String) : isTerminalWrite (Op.cacheDelete k) = false := rfl

theorem itw_dbProgress (p : Nat) (s : String) :
    isTerminalWrite (Op.dbProgress p s) = false := rfl

theorem itw_broadcast (t : EvType) : isTerminalWrite (Op.broadcast t) = false := rfl

theorem pw_cons_invoke (s : String) (t : List Op) :
    progress_writes (Op.invoke s :: t) = progress_writes t := rfl

theorem pw_cons_publish (ty : EvType) (d : EventData) (t : List Op) :
    progress_writes (Op.publish ty d :: t) = progress_writes t := rfl

theorem pw_cons_insert (s : String) (b : Bool) (t : List Op) :
    progress_writes (Op.dbInsertStage s b :: t) = progress_writes t := rfl

theorem simple_stage_props (stage : String) (c : Except String (Option String))
    (m : ModResult) (p : Nat) (u : UpdateProgressEnv) :
    no_terminal (simple_stage stage c m p u).1 = true ∧
    ((simple_stage stage c m p u).2 ≠ SegOut.proceed ∨
      progress_writes (simple_stage stage c m p u).1 = pw_up u p) := by
  unfold simple_stage
  split
  · exact ⟨nt_stage_started stage, Or.inl (by simp)⟩
  · cases m
    case raised k =>
      exact ⟨by simp [no_terminal_append, nt_stage_started, nt_invoke],
        Or.inl (by simp)⟩
    all_goals
      refine ⟨?_, Or.inr ?_⟩
      · simp [no_terminal_nil, no_terminal_append, no_terminal_cons, nt_stage_started,
          nt_stage_completed, nt_module_ops, itw_invoke,
          no_terminal_update_progress]
      · simp [progress_writes_append, pw_stage_started, pw_stage_completed,
          pw_module_ops, pw_cons_invoke, progress_writes_update_progress]

theorem reference_stage_props (c : Except String (Option String))
    (env : String) (tc te : Int) (m : ModResult) (u : UpdateProgressEnv) :
    no_terminal (reference_stage c env tc te m u).1 = true ∧
    ((reference_stage c env tc te m u).2 ≠ SegOut.proceed ∨
      progress_writes (reference_stage c env tc te m u).1 = pw_up u 30) := by
  unfold reference_stage
  split
  · exact ⟨nt_stage_started _, Or.inl (by simp)⟩
  split
  · exact ⟨nt_stage_started _, Or.inl (by simp)⟩
  cases henf : enforce_budget_limit te (get_budget_limit env) with
  | error msg =>
    cases m <;>
      refine ⟨?_, Or.inl (by simp [henf])⟩ <;>
      simp [henf, no_terminal_nil, no_terminal_append, no_terminal_cons, nt_stage_started,
        nt_stage_completed, nt_invoke, nt_fallback_pair, nt_publish_single,
        itw_invoke, itw_insert, itw_publish, no_terminal_update_progress]
  | ok v =>
    cases m <;>
      refine ⟨?_, Or.inr ?_⟩ <;>
      simp [henf, no_terminal_nil, no_terminal_append, no_terminal_cons, nt_stage_started,
        nt_stage_completed, nt_invoke, nt_fallback_pair,
        itw_invoke, itw_insert, itw_publish, no_terminal_update_progress,
        progress_writes_append, pw_stage_started, pw_stage_completed,
        pw_invoke, pw_fallback_pair, pw_cons_invoke, pw_cons_insert, pw_cons_publish,
        progress_writes_update_progress]

theorem video_stage_props (c : Except String (Option String))
    (env : String) (tc te : Int) (m : ModResult) (n : Nat) (u : UpdateProgressEnv) :
    no_terminal (video_stage c env tc te m n u).1 = true ∧
    ((video_stage c env tc te m n u).2 ≠ SegOut.proceed ∨
      progress_writes (video_stage c env tc te m n u).1 = pw_up u 85) := by
  unfold video_stage
  split
  · exact ⟨nt_stage_started _, Or.inl (by simp)⟩
  split
  · exact ⟨nt_stage_started _, Or.inl (by simp)⟩
  cases m
  case raised k =>
    exact ⟨by simp [no_terminal_nil, no_terminal_append, no_terminal_cons,
      nt_stage_started, itw_invoke], Or.inl (by simp)⟩
  all_goals
    dsimp only
    split
    · exact ⟨by simp [no_terminal_nil, no_terminal_append, nt_stage_started,
        nt_module_ops], Or.inl (by simp)⟩
    · cases henf : enforce_budget_limit te (get_budget_limit env) with
      | error msg =>
        refine ⟨?_, Or.inl (by simp [henf])⟩
        simp [henf, no_terminal_nil, no_terminal_append, no_terminal_cons,
          nt_stage_started, nt_stage_completed, nt_module_ops, nt_publish_single,
          itw_invoke, itw_publish, no_terminal_update_progress]
      | ok v =>
        refine ⟨?_, Or.inr ?_⟩
        · simp [henf, no_terminal_nil, no_terminal_append, no_terminal_cons,
            nt_stage_started, nt_stage_completed, nt_module_ops, itw_invoke,
            no_terminal_update_progress]
        · simp [henf, progress_writes_append, pw_stage_started, pw_stage_completed,
            pw_module_ops, pw_cons_invoke, progress_writes_update_progress]

theorem composer_stage_shape (c : Except String (Option String)) (m : ModResult)
    (url : String) (u : UpdateProgressEnv) :
    (no_terminal (composer_stage c m url u).1 = true ∧
      (composer_stage c m url u).2 ≠ SegOut.proceed) ∨
    (∃ pre u2, (composer_stage c m url u).1 =
        pre ++ Op.dbCompleted u2 :: Op.cacheDelete "job_status" ::
          ((update_progress 100 "composer" u).1 ++
           [Op.publish EvType.completed (EventData.completedData u2)]) ∧
      no_terminal pre = true ∧ progress_writes pre = [] ∧
      (composer_stage c m url u).2 = SegOut.proceed) := by
  unfold composer_stage
  split
  · exact Or.inl ⟨nt_stage_started _, by simp⟩
  cases m
  case raised k =>
    exact Or.inl ⟨by simp [no_terminal_nil, no_terminal_append, no_terminal_cons,
      nt_stage_started, itw_invoke], by simp⟩
  case ok =>
    refine Or.inr ⟨stage_started "composer" ++ module_ops "composer" ModResult.ok,
      url, by simp, ?_, ?_, by simp⟩
    · simp [no_terminal_append, nt_stage_started, nt_module_ops]
    · simp [progress_writes_append, pw_stage_started, pw_module_ops]
  case importError =>
    refine Or.inr ⟨stage_started "composer" ++ module_ops "composer" ModResult.importError,
      "stub_final_video_url", by simp, ?_, ?_, by simp⟩
    · simp [no_terminal_append, nt_stage_started, nt_module_ops]
    · simp [progress_writes_append, pw_stage_started, pw_module_ops]

/-! ## Pipeline shape lemma -/

theorem nt_start : no_terminal [Op.dbStatus "processing" none] = true := rfl

theorem pw_start : progress_writes [Op.dbStatus "processing" none] = [] := rfl

theorem itw_processing : isTerminalWrite (Op.dbStatus "processing" none) = false := rfl

theorem pw_cons_dbStatus (st : String) (m : Option String) (t : List Op) :
    progress_writes (Op.dbStatus st m :: t) = progress_writes t := rfl

theorem execute_pipeline_body_shape (e : PipelineEnv) :
    (∃ pre, execute_pipeline_body e = (pre ++ cancel_abort_ops, Except.ok ()) ∧
      no_terminal pre = true) ∨
    (∃ pre k, execute_pipeline_body e = (pre, Except.error k) ∧
      no_terminal pre = true) ∨
    (∃ pre url, execute_pipeline_body e =
        (pre ++ Op.dbCompleted url :: Op.cacheDelete "job_status" ::
          ((update_progress 100 "composer" e.up6).1 ++
           [Op.publish EvType.completed (EventData.completedData url)]),
         Except.ok ()) ∧
      no_terminal pre = true ∧
      progress_writes pre =
        pw_up e.up1 10 ++ pw_up e.up2 20 ++ pw_up e.up3 30 ++
          pw_up e.up4 40 ++ pw_up e.up5 85) := by
  obtain ⟨nt1, pw1⟩ := simple_stage_props "audio_parser" e.cancel1 e.mod1 10 e.up1
  obtain ⟨nt2, pw2⟩ := simple_stage_props "scene_planner" e.cancel2 e.mod2 20 e.up2
  obtain ⟨nt3, pw3⟩ := reference_stage_props e.cancel3 e.environment e.total3_check
    e.total3_enforce e.mod3 e.up3
  obtain ⟨nt4, pw4⟩ := simple_stage_props "prompt_generator" e.cancel4 e.mod4 40 e.up4
  obtain ⟨nt5, pw5⟩ := video_stage_props e.cancel5 e.environment e.total5_check
    e.total5_enforce e.mod5 e.clip_count e.up5
  have hshape6 := composer_stage_shape e.cancel6 e.mod6 e.video_url e.up6
  rcases hs1 : simple_stage "audio_parser" e.cancel1 e.mod1 10 e.up1 with ⟨ops1, out1⟩
  rw [hs1] at nt1 pw1
  rcases hs2 : simple_stage "scene_planner" e.cancel2 e.mod2 20 e.up2 with ⟨ops2, out2⟩
  rw [hs2] at nt2 pw2
  rcases hs3 : reference_stage e.cancel3 e.environment e.total3_check
    e.total3_enforce e.mod3 e.up3 with ⟨ops3, out3⟩
  rw [hs3] at nt3 pw3
  rcases hs4 : simple_stage "prompt_generator" e.cancel4 e.mod4 40 e.up4 with ⟨ops4, out4⟩
  rw [hs4] at nt4 pw4
  rcases hs5 : video_stage e.cancel5 e.environment e.total5_check
    e.total5_enforce e.mod5 e.clip_count e.up5 with ⟨ops5, out5⟩
  rw [hs5] at nt5 pw5
  rcases hs6 : composer_stage e.cancel6 e.mod6 e.video_url e.up6 with ⟨ops6, out6⟩
  rw [hs6] at hshape6
  simp only [execute_pipeline_body, hs1, hs2, hs3, hs4, hs5, hs6] at *
  cases out1 with
  | cancelled =>
    exact Or.inl ⟨[Op.dbStatus "processing" none] ++ ops1,
      by simp [List.append_assoc],
      by simp [no_terminal_append, no_terminal_cons, itw_processing, nt_start, nt1]⟩
  | raised k =>
    exact Or.inr (Or.inl ⟨[Op.dbStatus "processing" none] ++ ops1, k, by simp,
      by simp [no_terminal_append, no_terminal_cons, itw_processing, nt_start, nt1]⟩)
  | proceed =>
  cases out2 with
  | cancelled =>
    exact Or.inl ⟨[Op.dbStatus "processing" none] ++ ops1 ++ ops2,
      by simp [List.append_assoc],
      by simp [no_terminal_append, no_terminal_cons, itw_processing, nt_start, nt1, nt2]⟩
  | raised k =>
    exact Or.inr (Or.inl ⟨[Op.dbStatus "processing" none] ++ ops1 ++ ops2, k,
      by simp, by simp [no_terminal_append, no_terminal_cons, itw_processing, nt_start, nt1, nt2]⟩)
  | proceed =>
  cases out3 with
  | cancelled =>
    exact Or.inl ⟨[Op.dbStatus "processing" none] ++ ops1 ++ ops2 ++ ops3,
      by simp [List.append_assoc],
      by simp [no_terminal_append, no_terminal_cons, itw_processing, nt_start, nt1, nt2, nt3]⟩
  | raised k =>
    exact Or.inr (Or.inl ⟨[Op.dbStatus "processing" none] ++ ops1 ++ ops2 ++ ops3,
      k, by simp, by simp [no_terminal_append, no_terminal_cons, itw_processing, nt_start, nt1, nt2, nt3]⟩)
  | proceed =>
  cases out4 with
  | cancelled =>
    exact Or.inl ⟨[Op.dbStatus "processing" none] ++ ops1 ++ ops2 ++ ops3 ++ ops4,
      by simp [List.append_assoc],
      by simp [no_terminal_append, no_terminal_cons, itw_processing, nt_start, nt1, nt2, nt3, nt4]⟩
  | raised k =>
    exact Or.inr (Or.inl ⟨[Op.dbStatus "processing" none] ++ ops1 ++ ops2 ++
      ops3 ++ ops4, k, by simp,
      by simp [no_terminal_append, no_terminal_cons, itw_processing, nt_start, nt1, nt2, nt3, nt4]⟩)
  | proceed =>
  cases out5 with
  | cancelled =>
    exact Or.inl ⟨[Op.dbStatus "processing" none] ++ ops1 ++ ops2 ++ ops3 ++
      ops4 ++ ops5, by simp [List.append_assoc],
      by simp [no_terminal_append, no_terminal_cons, itw_processing, nt_start, nt1, nt2, nt3, nt4, nt5]⟩
  | raised k =>
    exact Or.inr (Or.inl ⟨[Op.dbStatus "processing" none] ++ ops1 ++ ops2 ++
      ops3 ++ ops4 ++ ops5, k, by simp,
      by simp [no_terminal_append, no_terminal_cons, itw_processing, nt_start, nt1, nt2, nt3, nt4, nt5]⟩)
  | proceed =>
  cases out6 with
  | cancelled =>
    rcases hshape6 with ⟨nt6, _⟩ | ⟨pre6, u2, hops, hnt6, hpw6, hproc⟩
    · exact Or.inl ⟨[Op.dbStatus "processing" none] ++ ops1 ++ ops2 ++ ops3 ++
        ops4 ++ ops5 ++ ops6, by simp [List.append_assoc],
        by simp [no_terminal_append, no_terminal_cons, itw_processing, nt_start, nt1, nt2, nt3, nt4, nt5, nt6]⟩
    · exact absurd hproc (by simp)
  | raised k =>
    rcases hshape6 with ⟨nt6, _⟩ | ⟨pre6, u2, hops, hnt6, hpw6, hproc⟩
    · exact Or.inr (Or.inl ⟨[Op.dbStatus "processing" none] ++ ops1 ++ ops2 ++
        ops3 ++ ops4 ++ ops5 ++ ops6, k, by simp,
        by simp [no_terminal_append, no_terminal_cons, itw_processing, nt_start, nt1, nt2, nt3, nt4, nt5, nt6]⟩)
    · exact absurd hproc (by simp)
  | proceed =>
    rcases hshape6 with ⟨nt6, hnp⟩ | ⟨pre6, u2, hops, hnt6, hpw6, hproc⟩
    · exact absurd rfl hnp
    · have hpw1 := pw1.resolve_left (by simp)
      have hpw2 := pw2.resolve_left (by simp)
      have hpw3 := pw3.resolve_left (by simp)
      have hpw4 := pw4.resolve_left (by simp)
      have hpw5 := pw5.resolve_left (by simp)
      refine Or.inr (Or.inr ⟨[Op.dbStatus "processing" none] ++ ops1 ++ ops2 ++
        ops3 ++ ops4 ++ ops5 ++ pre6, u2, ?_, ?_, ?_⟩)
      · simp [hops, List.append_assoc]
      · simp [no_terminal_append, no_terminal_cons, itw_processing, nt_start, nt1, nt2, nt3, nt4, nt5, hnt6]
      · simp [progress_writes_append, pw_cons_dbStatus, pw_start, hpw1, hpw2, hpw3, hpw4, hpw5, hpw6]

/-! ## Observation atoms for the claim proofs -/

theorem itw_failed (m : Option String) :
    isTerminalWrite (Op.dbStatus "failed" m) = true := rfl

theorem itw_dbCompleted (u : String) : isTerminalWrite (Op.dbCompleted u) = true := rfl

theorem ifw_dbCompleted (u : String) : isFailedWrite (Op.dbCompleted u) = false := rfl

theorem ifw_cacheDelete (k : String) : isFailedWrite (Op.cacheDelete k) = false := rfl

theorem ifw_publish (t : EvType) (d : EventData) :
    isFailedWrite (Op.publish t d) = false := rfl

theorem ifw_failed (m : Option String) :
    isFailedWrite (Op.dbStatus "failed" m) = true := rfl

theorem fw_cons_of_neg {o : Op} (t : List Op) (h : isFailedWrite o = false) :
    failed_writes (o :: t) = failed_writes t := by
  simp [failed_writes, List.filter_cons, h]

theorem fw_cons_of_pos {o : Op} (t : List Op) (h : isFailedWrite o = true) :
    failed_writes (o :: t) = failed_writes t + 1 := by
  simp [failed_writes, List.filter_cons, h, Nat.add_comm]

theorem fw_failed_singleton (m : Option String) :
    failed_writes [Op.dbStatus "failed" m] = 1 := rfl

theorem fw_publish_singleton (t : EvType) (d : EventData) :
    failed_writes [Op.publish t d] = 0 := rfl

theorem pt_nil : pub_types [] = [] := rfl

theorem pt_cons_cacheDelete (k : String) (t : List Op) :
    pub_types (Op.cacheDelete k :: t) = pub_types t := rfl

theorem pt_cons_dbStatus (st : String) (m : Option String) (t : List Op) :
    pub_types (Op.dbStatus st m :: t) = pub_types t := rfl

theorem pt_cons_publish (ty : EvType) (d : EventData) (t : List Op) :
    pub_types (Op.publish ty d :: t) = ty :: pub_types t := rfl

theorem fw_handle_list (k : ExcKind) (rest : List Op) :
    failed_writes (handle_pipeline_error k ++ rest) = 1 + failed_writes rest := by
  simp [failed_writes_append, failed_writes_handle, Nat.add_comm]

theorem pt_aft_handle_list (k : ExcKind) (rest : List Op) :
    pub_types (after_first_terminal (handle_pipeline_error k ++ rest)) =
      EvType.error :: pub_types rest := by
  simp [handle_pipeline_error, after_first_terminal, List.dropWhile_cons, itw_failed,
    pt_cons_cacheDelete, pt_cons_publish]

/-! ## Claim C1 -/

/-- Claim C1 (corrected): the original claim — status=failed written exactly
once, immediately followed by an error event, and no events after a terminal
status write — fails on the code (see the counterexample).  What does hold,
for every worker execution in every environment: status=failed is written at
most twice (the worker re-marks failure after the orchestrator handler when
an exception outside the PipelineError hierarchy escapes, and writes it
itself at its cancellation pre-check without any event); and after the first
terminal status write, the only events published on the Event Bus are a final
progress event followed by the completed event (success path) or the single
error event of the error handler (failure paths). -/
theorem C1_terminal_write_and_events (w : WorkerEnv) :
    failed_writes (process_job w) ≤ 2 ∧
    (List.Sublist (pub_types (after_first_terminal (process_job w)))
        [EvType.progress, EvType.completed] ∨
     List.Sublist (pub_types (after_first_terminal (process_job w)))
        [EvType.error]) := by
  cases hcr : w.cancel_read with
  | error msg =>
    refine ⟨?_, Or.inl ?_⟩ <;> simp [process_job, hcr, failed_writes,
      after_first_terminal, pub_types]
  | ok v =>
    cases v with
    | some mark =>
      refine ⟨?_, Or.inl ?_⟩ <;>
        simp [process_job, hcr, failed_writes, List.filter, isFailedWrite,
          after_first_terminal, List.dropWhile_cons, itw_failed, pub_types]
    | none =>
      rcases execute_pipeline_body_shape w.pipe with
        ⟨pre, hb, hpre⟩ | ⟨pre, k, hb, hpre⟩ | ⟨pre, url, hb, hpre, hpw⟩
      · -- cancellation abort inside the pipeline
        have hex : execute_pipeline w.pipe = (pre ++ cancel_abort_ops, Except.ok ()) := by
          simp [execute_pipeline, hb]
        constructor
        · simp [process_job, hcr, hex, failed_writes_append,
            failed_writes_of_no_terminal hpre, cancel_abort_ops, failed_writes_handle]
        · refine Or.inr ?_
          rw [process_job, hcr]
          simp only [hex]
          rw [after_first_terminal_append _ hpre]
          simp only [cancel_abort_ops, pub_types_after_handle]
          exact List.Sublist.refl _
      · -- an exception escaped the stage blocks
        cases k with
        | genericE msg =>
          have hex : execute_pipeline w.pipe =
              (pre ++ handle_pipeline_error
                 (ExcKind.pipelineE ("Pipeline execution failed: " ++ msg) none),
               Except.error (ExcKind.genericE msg)) := by
            simp [execute_pipeline, hb]
          have htr : process_job w =
              pre ++ (handle_pipeline_error
                 (ExcKind.pipelineE ("Pipeline execution failed: " ++ msg) none) ++
               [Op.dbStatus "failed" (some ("Unexpected error: " ++ msg))]) := by
            simp [process_job, hcr, hex, List.append_assoc]
          constructor
          · rw [htr]
            simp [failed_writes_append, failed_writes_of_no_terminal hpre,
              failed_writes_handle, fw_failed_singleton]
          · refine Or.inr ?_
            rw [htr, after_first_terminal_append _ hpre, pt_aft_handle_list]
            simp [pt_cons_dbStatus, pt_nil]
        | retryableE msg c =>
          have hex : execute_pipeline w.pipe =
              (pre ++ handle_pipeline_error (ExcKind.retryableE msg c),
               Except.error (ExcKind.retryableE msg c)) := by
            simp [execute_pipeline, hb]
          have htr : process_job w =
              pre ++ handle_pipeline_error (ExcKind.retryableE msg c) := by
            simp [process_job, hcr, hex]
          constructor
          · rw [htr]
            simp [failed_writes_append, failed_writes_of_no_terminal hpre,
              failed_writes_handle]
          · refine Or.inr ?_
            rw [htr, after_first_terminal_append _ hpre, pub_types_after_handle]
        | pipelineE msg c =>
          have hex : execute_pipeline w.pipe =
              (pre ++ handle_pipeline_error (ExcKind.pipelineE msg c),
               Except.error (ExcKind.pipelineE msg c)) := by
            simp [execute_pipeline, hb]
          have htr : process_job w =
              pre ++ handle_pipeline_error (ExcKind.pipelineE msg c) := by
            simp [process_job, hcr, hex]
          constructor
          · rw [htr]
            simp [failed_writes_append, failed_writes_of_no_terminal hpre,
              failed_writes_handle]
          · refine Or.inr ?_
            rw [htr, after_first_terminal_append _ hpre, pub_types_after_handle]
        | budgetE msg c =>
          have hex : execute_pipeline w.pipe =
              (pre ++ handle_pipeline_error (ExcKind.budgetE msg c),
               Except.error (ExcKind.budgetE msg c)) := by
            simp [execute_pipeline, hb]
          have htr : process_job w =
              pre ++ handle_pipeline_error (ExcKind.budgetE msg c) := by
            simp [process_job, hcr, hex]
          constructor
          · rw [htr]
            simp [failed_writes_append, failed_writes_of_no_terminal hpre,
              failed_writes_handle]
          · refine Or.inr ?_
            rw [htr, after_first_terminal_append _ hpre, pub_types_after_handle]
      · -- successful completion
        have hex : execute_pipeline w.pipe =
            (pre ++ Op.dbCompleted url :: Op.cacheDelete "job_status" ::
              ((update_progress 100 "composer" w.pipe.up6).1 ++
               [Op.publish EvType.completed (EventData.completedData url)]),
             Except.ok ()) := by
          simp [execute_pipeline, hb]
        have htr : process_job w =
            pre ++ Op.dbCompleted url :: Op.cacheDelete "job_status" ::
              ((update_progress 100 "composer" w.pipe.up6).1 ++
               [Op.publish EvType.completed (EventData.completedData url)]) := by
          simp [process_job, hcr, hex]
        constructor
        · rw [htr]
          simp [failed_writes_append, failed_writes_of_no_terminal hpre,
            fw_cons_of_neg _ (ifw_dbCompleted url),
            fw_cons_of_neg _ (ifw_cacheDelete "job_status"),
            failed_writes_of_no_terminal (no_terminal_update_progress 100 "composer" w.pipe.up6),
            fw_publish_singleton]
        · refine Or.inl ?_
          rw [htr, after_first_terminal_append _ hpre,
            after_first_terminal_cons_terminal _ (itw_dbCompleted url)]
          rw [pt_cons_cacheDelete, pub_types_append, pt_cons_publish, pt_nil]
          rcases pub_types_update_progress 100 "composer" w.pipe.up6 with hp | hp <;>
            rw [hp] <;> decide

/-- Claim C1 counterexample: with the composer collaborator raising a
plain exception, status=failed is written twice in one worker execution
(once by handle_pipeline_error, once by the worker fallback), refuting
"written exactly once"; and on the plain success path a progress event and
the completed event are published after the terminal completed row write,
refuting "after either terminal state is written, no further events are
emitted". -/
theorem C1_counterexample :
    failed_writes (process_job ⟨Except.ok none, env_generic_failure⟩) = 2 ∧
    pub_types (after_first_terminal (execute_pipeline env_success).1) =
      [EvType.progress, EvType.completed] := by decide

/-! ## Claim C2 -/

/-- Claim C2 counterexample: track_cost consults no budget limit, so a single
tracked cost of 2001 lifts total_cost above the production limit of 2000 at
an observable moment (immediately after the ledger operation completes). -/
theorem C2_counterexample :
    get_budget_limit "production" <
      get_total_cost (apply_ledger_ops ⟨[], 0⟩ [⟨"video_generator", "svd", 2001⟩]) := by
  decide

/-- Claim C2 (corrected): total_cost ≤ budget_limit does not hold at every
observable moment — a track_cost may push the total above the limit (see the
counterexample).  What the ledger guarantees instead: post-stage enforcement
succeeds exactly when total_cost ≤ limit (otherwise BudgetExceeded is raised
and the job fails), the pre-stage check admits a stage exactly when
total_cost plus the estimate stays within the limit, and track_cost of a
non-negative amount unconditionally appends the entry and adds the amount to
the stored total. -/
theorem C2_budget_enforcement (st : LedgerState) (stage api : String)
    (c limit cost : Int) (h : ¬ cost < 0) :
    (enforce_budget_limit (get_total_cost st) limit = Except.ok () ↔
      get_total_cost st ≤ limit) ∧
    (check_budget (get_total_cost st) c limit = true ↔
      get_total_cost st + c ≤ limit) ∧
    track_cost st stage api cost =
      Except.ok ⟨st.entries ++ [(stage, api, cost)], get_total_cost st + cost⟩ := by
  refine ⟨?_, ?_, ?_⟩
  · unfold enforce_budget_limit
    split <;> simp <;> omega
  · simp [check_budget, get_total_cost]
  · simp [track_cost, get_total_cost, h]

/-- Claim C2 witness: the amended guarantees evaluated at a ledger holding a
total of 1999. -/
theorem C2_budget_enforcement_witness :
    (enforce_budget_limit (get_total_cost ⟨[], 1999⟩) 2000 = Except.ok () ↔
      get_total_cost (⟨[], 1999⟩ : LedgerState) ≤ 2000) ∧
    (check_budget (get_total_cost ⟨[], 1999⟩) 100 2000 = true ↔
      get_total_cost (⟨[], 1999⟩ : LedgerState) + 100 ≤ 2000) ∧
    track_cost ⟨[], 1999⟩ "video_generator" "svd" 100 =
      Except.ok ⟨[("video_generator", "svd", 100)],
        get_total_cost (⟨[], 1999⟩ : LedgerState) + 100⟩ :=
  C2_budget_enforcement ⟨[], 1999⟩ "video_generator" "svd" 100 2000 100 (by decide)

/-! ## Claim C3 -/

theorem pw_cons_dbCompleted (u : String) (t : List Op) :
    progress_writes (Op.dbCompleted u :: t) = 100 :: progress_writes t := rfl

theorem pw_cons_cacheDelete (k : String) (t : List Op) :
    progress_writes (Op.cacheDelete k :: t) = progress_writes t := rfl

theorem pw_mask (u1 u2 u3 u4 u5 u6 : UpdateProgressEnv) :
    List.Sorted (· ≤ ·) (pw_up u1 10 ++ pw_up u2 20 ++ pw_up u3 30 ++ pw_up u4 40 ++
      pw_up u5 85 ++ 100 :: pw_up u6 100) ∧
    List.Sublist (pw_up u1 10 ++ pw_up u2 20 ++ pw_up u3 30 ++ pw_up u4 40 ++
      pw_up u5 85 ++ 100 :: pw_up u6 100).dedup [0, 10, 20, 30, 40, 85, 100] := by
  cases h1 : u1.db_write <;> cases h2 : u2.db_write <;> cases h3 : u3.db_write <;>
    cases h4 : u4.db_write <;> cases h5 : u5.db_write <;> cases h6 : u6.db_write <;>
    simp only [pw_up, h1, h2, h3, h4, h5, h6] <;> decide

/-- Claim C3 (confirmed): in a single successful run — the pipeline returns
normally and no failed status write occurs — the progress values written to
the job row are monotonically non-decreasing, and their distinct values in
order of first write form a subsequence of 0, 10, 20, 30, 40, 85, 100.
(The write sequence itself may repeat 100: the completed row write and the
final update_progress both write progress=100, and update_progress writes
whose jobs-row update fails are swallowed and absent.) -/
theorem C3_progress_monotone (e : PipelineEnv)
    (hok : (execute_pipeline e).2 = Except.ok ())
    (hnf : failed_writes (execute_pipeline e).1 = 0) :
    List.Sorted (· ≤ ·) (progress_writes (execute_pipeline e).1) ∧
    List.Sublist (progress_writes (execute_pipeline e).1).dedup
      [0, 10, 20, 30, 40, 85, 100] := by
  rcases execute_pipeline_body_shape e with
    ⟨pre, hb, hpre⟩ | ⟨pre, k, hb, hpre⟩ | ⟨pre, url, hb, hpre, hpw⟩
  · have hex : execute_pipeline e = (pre ++ cancel_abort_ops, Except.ok ()) := by
      simp [execute_pipeline, hb]
    rw [hex] at hnf
    simp [failed_writes_append, failed_writes_of_no_terminal hpre,
      cancel_abort_ops, failed_writes_handle] at hnf
  · have hne : (execute_pipeline e).2 = Except.error k := by
      cases k <;> simp [execute_pipeline, hb]
    rw [hne] at hok
    simp at hok
  · have hex : execute_pipeline e =
        (pre ++ Op.dbCompleted url :: Op.cacheDelete "job_status" ::
          ((update_progress 100 "composer" e.up6).1 ++
           [Op.publish EvType.completed (EventData.completedData url)]),
         Except.ok ()) := by
      simp [execute_pipeline, hb]
    rw [hex]
    have hlist : progress_writes (pre ++ Op.dbCompleted url ::
        Op.cacheDelete "job_status" ::
          ((update_progress 100 "composer" e.up6).1 ++
           [Op.publish EvType.completed (EventData.completedData url)])) =
        pw_up e.up1 10 ++ pw_up e.up2 20 ++ pw_up e.up3 30 ++ pw_up e.up4 40 ++
          pw_up e.up5 85 ++ 100 :: pw_up e.up6 100 := by
      rw [progress_writes_append, pw_cons_dbCompleted, pw_cons_cacheDelete,
        progress_writes_append, progress_writes_update_progress,
        pw_publish_single, hpw]
      simp [List.append_assoc]
    rw [hlist]
    exact pw_mask e.up1 e.up2 e.up3 e.up4 e.up5 e.up6

/-- Claim C3 witness: the monotonicity and order facts evaluated on the
success environment. -/
theorem C3_progress_monotone_witness :
    List.Sorted (· ≤ ·) (progress_writes (execute_pipeline env_success).1) ∧
    List.Sublist (progress_writes (execute_pipeline env_success).1).dedup
      [0, 10, 20, 30, 40, 85, 100] :=
  C3_progress_monotone env_success (by decide) (by decide)

/-! ## Claim C4 -/

/-- Claim C4 (code bug): evaluation of the rate limiter at the failing
input — six sequential admission attempts by one user at the same integer
second, starting from an empty window.  All six succeed and the final sorted
set holds a single entry, because zadd keys the member by str(now): repeated
adds within one second collapse into one member, the cardinality never
reaches 5, and the claimed bound of five admissions per 3600-second window
is violated.  The docstring of check_rate_limit ("5 jobs per hour") and
specification scenario (f) — the sixth upload within one second receives
429 — state the intended behaviour that the code misses. -/
theorem C4_same_second_admissions :
    run_rate_limit [] (List.replicate 6 1000000) = ([1000000], 6) ∧ 5 < 6 := by
  decide

/-! ## Claim C5 -/

/-- Claim C5 (confirmed): before S3 (estimate 50) and S5 (estimate 100) the
orchestrator calls check_budget against the environment budget limit; when
the projected total would exceed the limit the stage block stops right after
its started publish with BudgetExceeded raised and the stage collaborator is
never invoked; and every pipeline run ending in a BudgetExceeded error has
written status=failed with the error message and published a non-retryable
error event with code BUDGET_EXCEEDED. -/
theorem C5_budget_precheck :
    (∀ c env tc te m u, check_cancellation c = false →
       check_budget tc 50 (get_budget_limit env) = false →
       reference_stage c env tc te m u =
         (stage_started "reference_generator",
          SegOut.raised (ExcKind.budgetE
            "Would exceed budget limit before reference generation" none)) ∧
       Op.invoke "reference_generator" ∉ (reference_stage c env tc te m u).1) ∧
    (∀ c env tc te m n u, check_cancellation c = false →
       check_budget tc 100 (get_budget_limit env) = false →
       video_stage c env tc te m n u =
         (stage_started "video_generator",
          SegOut.raised (ExcKind.budgetE
            "Would exceed budget limit before video generation" none)) ∧
       Op.invoke "video_generator" ∉ (video_stage c env tc te m n u).1) ∧
    (∀ e msg code, (execute_pipeline e).2 = Except.error (ExcKind.budgetE msg code) →
       Op.dbStatus "failed" (some msg) ∈ (execute_pipeline e).1 ∧
       Op.publish EvType.error (EventData.errorData ⟨msg, some "BUDGET_EXCEEDED", false⟩) ∈
         (execute_pipeline e).1) := by
  refine ⟨?_, ?_, ?_⟩
  · intro c env tc te m u hc hcb
    have heq : reference_stage c env tc te m u =
        (stage_started "reference_generator",
         SegOut.raised (ExcKind.budgetE
           "Would exceed budget limit before reference generation" none)) := by
      unfold reference_stage
      simp [hc, hcb]
    exact ⟨heq, by rw [heq]; simp [stage_started]⟩
  · intro c env tc te m n u hc hcb
    have heq : video_stage c env tc te m n u =
        (stage_started "video_generator",
         SegOut.raised (ExcKind.budgetE
           "Would exceed budget limit before video generation" none)) := by
      unfold video_stage
      simp [hc, hcb]
    exact ⟨heq, by rw [heq]; simp [stage_started]⟩
  · intro e msg code hk
    cases hr : (execute_pipeline_body e).2 with
    | ok v =>
      have h2 : (execute_pipeline e).2 = Except.ok () := by
        simp [execute_pipeline, hr]
      rw [h2] at hk
      simp at hk
    | error k =>
      cases k with
      | genericE m2 =>
        have h2 : (execute_pipeline e).2 = Except.error (ExcKind.genericE m2) := by
          simp [execute_pipeline, hr]
        rw [h2] at hk
        simp at hk
      | retryableE m2 c2 =>
        have h2 : (execute_pipeline e).2 = Except.error (ExcKind.retryableE m2 c2) := by
          simp [execute_pipeline, hr]
        rw [h2] at hk
        simp at hk
      | pipelineE m2 c2 =>
        have h2 : (execute_pipeline e).2 = Except.error (ExcKind.pipelineE m2 c2) := by
          simp [execute_pipeline, hr]
        rw [h2] at hk
        simp at hk
      | budgetE m2 c2 =>
        have h1 : execute_pipeline e =
            ((execute_pipeline_body e).1 ++
               handle_pipeline_error (ExcKind.budgetE m2 c2),
             Except.error (ExcKind.budgetE m2 c2)) := by
          simp [execute_pipeline, hr]
        rw [h1] at hk
        simp at hk
        obtain ⟨hm, hc2⟩ := hk
        subst hm
        rw [h1]
        constructor <;>
          exact List.mem_append_right _ (by simp [handle_pipeline_error, excMsg])

/-- Claim C5 witness: the S3 pre-check refusal at a stored total of 1999 in
production, and the failed write plus BUDGET_EXCEEDED error event of the run
stopped at the S5 pre-check. -/
theorem C5_budget_precheck_witness :
    (reference_stage (Except.ok none) "production" 1999 0 ModResult.ok up_all_ok =
       (stage_started "reference_generator",
        SegOut.raised (ExcKind.budgetE
          "Would exceed budget limit before reference generation" none)) ∧
     Op.invoke "reference_generator" ∉
       (reference_stage (Except.ok none) "production" 1999 0 ModResult.ok up_all_ok).1) ∧
    (Op.dbStatus "failed" (some "Would exceed budget limit before video generation") ∈
       (execute_pipeline env_budget_stop).1 ∧
     Op.publish EvType.error (EventData.errorData
        ⟨"Would exceed budget limit before video generation",
         some "BUDGET_EXCEEDED", false⟩) ∈ (execute_pipeline env_budget_stop).1) :=
  ⟨C5_budget_precheck.1 (Except.ok none) "production" 1999 0 ModResult.ok up_all_ok
     (by decide) (by decide),
   C5_budget_precheck.2.2 env_budget_stop
     "Would exceed budget limit before video generation" none (by decide)⟩

/-! ## Claim C6 -/

/-- Claim C6 counterexample: with S5 producing a single clip the raised
PipelineError carries the message "Insufficient clips generated (minimum 3
required)", not the claimed "Insufficient clips generated", and no failed
write with the claimed message occurs. -/
theorem C6_counterexample :
    (execute_pipeline env_few_clips).2 =
      Except.error (ExcKind.pipelineE
        "Insufficient clips generated (minimum 3 required)" none) ∧
    (execute_pipeline env_few_clips).2 ≠
      Except.error (ExcKind.pipelineE "Insufficient clips generated" none) ∧
    Op.dbStatus "failed" (some "Insufficient clips generated") ∉
      (execute_pipeline env_few_clips).1 := by decide

/-- Claim C6 (corrected): when S5 produces fewer than three clips (after a
passed cancellation pre-check and budget pre-check) the orchestrator raises
PipelineError with message "Insufficient clips generated (minimum 3
required)" — the collaborator having been invoked, nothing else of the stage
block executed — and every PipelineError escaping the pipeline terminates
the job with a failed status write carrying that message. -/
theorem C6_insufficient_clips :
    (∀ c env tc te n u, check_cancellation c = false →
       check_budget tc 100 (get_budget_limit env) = true → n < 3 →
       video_stage c env tc te ModResult.ok n u =
         (stage_started "video_generator" ++ [Op.invoke "video_generator"],
          SegOut.raised (ExcKind.pipelineE
            "Insufficient clips generated (minimum 3 required)" none))) ∧
    (∀ e msg code, (execute_pipeline e).2 = Except.error (ExcKind.pipelineE msg code) →
       Op.dbStatus "failed" (some msg) ∈ (execute_pipeline e).1) := by
  constructor
  · intro c env tc te n u hc hcb hn
    unfold video_stage
    simp [hc, hcb, module_ops, hn]
  · intro e msg code hk
    cases hr : (execute_pipeline_body e).2 with
    | ok v =>
      have h2 : (execute_pipeline e).2 = Except.ok () := by
        simp [execute_pipeline, hr]
      rw [h2] at hk
      simp at hk
    | error k =>
      cases k with
      | genericE m2 =>
        have h2 : (execute_pipeline e).2 = Except.error (ExcKind.genericE m2) := by
          simp [execute_pipeline, hr]
        rw [h2] at hk
        simp at hk
      | retryableE m2 c2 =>
        have h2 : (execute_pipeline e).2 = Except.error (ExcKind.retryableE m2 c2) := by
          simp [execute_pipeline, hr]
        rw [h2] at hk
        simp at hk
      | budgetE m2 c2 =>
        have h2 : (execute_pipeline e).2 = Except.error (ExcKind.budgetE m2 c2) := by
          simp [execute_pipeline, hr]
        rw [h2] at hk
        simp at hk
      | pipelineE m2 c2 =>
        have h1 : execute_pipeline e =
            ((execute_pipeline_body e).1 ++
               handle_pipeline_error (ExcKind.pipelineE m2 c2),
             Except.error (ExcKind.pipelineE m2 c2)) := by
          simp [execute_pipeline, hr]
        rw [h1] at hk
        simp at hk
        obtain ⟨hm, hc2⟩ := hk
        subst hm
        rw [h1]
        exact List.mem_append_right _ (by simp [handle_pipeline_error, excMsg])

/-- Claim C6 witness: the clips validation firing at one produced clip, and
the failed write of the single-clip run. -/
theorem C6_insufficient_clips_witness :
    (video_stage (Except.ok none) "production" 0 0 ModResult.ok 1 up_all_ok =
       (stage_started "video_generator" ++ [Op.invoke "video_generator"],
        SegOut.raised (ExcKind.pipelineE
          "Insufficient clips generated (minimum 3 required)" none))) ∧
    Op.dbStatus "failed" (some "Insufficient clips generated (minimum 3 required)") ∈
      (execute_pipeline env_few_clips).1 :=
  ⟨C6_insufficient_clips.1 (Except.ok none) "production" 0 0 1 up_all_ok
      (by decide) (by decide) (by decide),
   C6_insufficient_clips.2 env_few_clips
     "Insufficient clips generated (minimum 3 required)" none (by decide)⟩

/-! ## Claim C7 -/

/-- Claim C7 (confirmed): remove_job is idempotent, and cancellation is
permitted only from queued or processing: the first cancel transitions the
row to failed with the cancellation message (queued deletes the payload key,
processing sets the cancellation marker; both invalidate the status cache),
and a second cancel of the same job is rejected with 400 and leaves the
state unchanged. -/
theorem C7_cancel_idempotent :
    (∀ s : JobControlState, remove_job (remove_job s).1 = remove_job s) ∧
    (∀ s : JobControlState, s.status = "queued" ∨ s.status = "processing" →
      (cancel_job s).1.status = "failed" ∧
      (cancel_job s).1.error_message = some "Job cancelled by user" ∧
      (cancel_job s).1.status_cache = false ∧
      (s.status = "queued" → (cancel_job s).1.payload_key = false) ∧
      (s.status = "processing" → (cancel_job s).1.cancel_marker = true) ∧
      cancel_job (cancel_job s).1 =
        ((cancel_job s).1,
         CancelOutcome.httpError 400 "Cannot cancel job with status: failed")) := by
  constructor
  · intro s
    rfl
  · intro s hs
    rcases hs with h | h
    · simp [cancel_job, remove_job, h]
    · simp [cancel_job, remove_job, h]

/-- Claim C7 witness: a cancel from queued followed by a second cancel,
at a concrete control state. -/
theorem C7_cancel_idempotent_witness :
    remove_job (remove_job ⟨"queued", none, true, false, true⟩).1 =
      remove_job ⟨"queued", none, true, false, true⟩ ∧
    ((cancel_job ⟨"queued", none, true, false, true⟩).1.status = "failed" ∧
     (cancel_job ⟨"queued", none, true, false, true⟩).1.error_message =
       some "Job cancelled by user" ∧
     (cancel_job ⟨"queued", none, true, false, true⟩).1.status_cache = false ∧
     ((⟨"queued", none, true, false, true⟩ : JobControlState).status = "queued" →
       (cancel_job ⟨"queued", none, true, false, true⟩).1.payload_key = false) ∧
     ((⟨"queued", none, true, false, true⟩ : JobControlState).status = "processing" →
       (cancel_job ⟨"queued", none, true, false, true⟩).1.cancel_marker = true) ∧
     cancel_job (cancel_job ⟨"queued", none, true, false, true⟩).1 =
       ((cancel_job ⟨"queued", none, true, false, true⟩).1,
        CancelOutcome.httpError 400 "Cannot cancel job with status: failed")) :=
  ⟨C7_cancel_idempotent.1 ⟨"queued", none, true, false, true⟩,
   C7_cancel_idempotent.2 ⟨"queued", none, true, false, true⟩ (Or.inl rfl)⟩

/-! ## Claim C8 -/

/-- Claim C8 counterexample: with two rows in store order oldest first,
limit 1 and offset 0, the endpoint fetches only the first stored row and
returns it, while rows [0, 1) of the full descending created_at order hold
the newer row — the claimed page equality fails. -/
theorem C8_counterexample :
    (list_jobs c8_rows 2 1 0).jobs = [⟨1, 1⟩] ∧
    spec_list_jobs_page c8_rows 1 0 = [⟨2, 2⟩] ∧
    (list_jobs c8_rows 2 1 0).jobs ≠ spec_list_jobs_page c8_rows 1 0 := by decide

/-- Claim C8 (corrected): the endpoint sorts only the limit + offset rows it
fetched, in whatever order the store returned them, so the returned page is
rows [offset, offset+limit) of the descending sort of that fetched subset —
equal to the true page of the full descending order whenever the user has at
most limit + offset rows — the page it returns is always descending by
created_at, and the response echoes total, limit and offset. -/
theorem C8_pagination (rows : List JobRow) (total limit offset : Nat) :
    (rows.length ≤ limit + offset →
      (list_jobs rows total limit offset).jobs = spec_list_jobs_page rows limit offset) ∧
    List.Sorted (fun a b => b.created_at ≤ a.created_at)
      (list_jobs rows total limit offset).jobs ∧
    (list_jobs rows total limit offset).total = total ∧
    (list_jobs rows total limit offset).limit = limit ∧
    (list_jobs rows total limit offset).offset = offset := by
  refine ⟨?_, ?_, rfl, rfl, rfl⟩
  · intro h
    simp only [list_jobs, spec_list_jobs_page, List.take_of_length_le h]
  · have hs : List.Sorted (fun a b => b.created_at ≤ a.created_at)
        (sort_desc (rows.take (limit + offset))) :=
      List.sorted_insertionSort _ _
    have hsub : List.Sublist
        (((sort_desc (rows.take (limit + offset))).drop offset).take limit)
        (sort_desc (rows.take (limit + offset))) :=
      (List.take_sublist _ _).trans (List.drop_sublist _ _)
    exact List.Pairwise.sublist hsub hs

/-- Claim C8 witness: the amended guarantees at a concrete store order —
with both rows fetched (limit 2, offset 0) the page also equals the true
descending page. -/
theorem C8_pagination_witness :
    (list_jobs c8_rows 2 2 0).jobs = spec_list_jobs_page c8_rows 2 0 ∧
    List.Sorted (fun a b => b.created_at ≤ a.created_at) (list_jobs c8_rows 2 2 0).jobs ∧
    (list_jobs c8_rows 2 2 0).total = 2 ∧
    (list_jobs c8_rows 2 2 0).limit = 2 ∧
    (list_jobs c8_rows 2 2 0).offset = 0 :=
  ⟨(C8_pagination c8_rows 2 2 0).1 (by decide),
   (C8_pagination c8_rows 2 2 0).2.1,
   (C8_pagination c8_rows 2 2 0).2.2.1,
   (C8_pagination c8_rows 2 2 0).2.2.2.1,
   (C8_pagination c8_rows 2 2 0).2.2.2.2⟩

/-! ## Claim C9 -/

/-- Claim C9 (confirmed): a broker failure while reading the cancellation
marker makes check_cancellation return false (the exception is caught,
logged and swallowed), and every stage block behaves exactly as if the
marker were absent — a broker outage at a pre-stage checkpoint never aborts
a running job. -/
theorem C9_cancellation_fail_open :
    (∀ msg, check_cancellation (Except.error msg) = false) ∧
    (∀ stage msg m p u, simple_stage stage (Except.error msg) m p u =
      simple_stage stage (Except.ok none) m p u) ∧
    (∀ msg env tc te m u, reference_stage (Except.error msg) env tc te m u =
      reference_stage (Except.ok none) env tc te m u) ∧
    (∀ msg env tc te m n u, video_stage (Except.error msg) env tc te m n u =
      video_stage (Except.ok none) env tc te m n u) ∧
    (∀ msg m url u, composer_stage (Except.error msg) m url u =
      composer_stage (Except.ok none) m url u) :=
  ⟨fun _ => rfl, fun _ _ _ _ _ => rfl, fun _ _ _ _ _ _ => rfl,
   fun _ _ _ _ _ _ _ => rfl, fun _ _ _ _ => rfl⟩

/-! ## Claim C10 -/

/-- Claim C10 (confirmed): update_progress never raises — whatever the
outcomes of its jobs-row write, its status-cache invalidation and its two
event publications, the call returns normally, with the sub-operations
before the first failure performed — and the outcome of every stage block is
independent of its update_progress environment, so a failed progress update
(including a failed database write) never terminates a pipeline run. -/
theorem C10_update_progress_never_raises :
    (∀ p s (u : UpdateProgressEnv), (update_progress p s u).2 = Except.ok ()) ∧
    (∀ stage c m p u u2,
      (simple_stage stage c m p u).2 = (simple_stage stage c m p u2).2) ∧
    (∀ c env tc te m u u2,
      (reference_stage c env tc te m u).2 = (reference_stage c env tc te m u2).2) ∧
    (∀ c env tc te m n u u2,
      (video_stage c env tc te m n u).2 = (video_stage c env tc te m n u2).2) ∧
    (∀ c m url u u2,
      (composer_stage c m url u).2 = (composer_stage c m url u2).2) := by
  refine ⟨update_progress_never_raises, ?_, ?_, ?_, ?_⟩
  · intro stage c m p u u2
    unfold simple_stage
    split
    · rfl
    · cases m <;> rfl
  · intro c env tc te m u u2
    unfold reference_stage
    split
    · rfl
    split
    · rfl
    cases henf : enforce_budget_limit te (get_budget_limit env) <;> cases m <;>
      simp [henf]
  · intro c env tc te m n u u2
    unfold video_stage
    split
    · rfl
    split
    · rfl
    cases m
    case raised k => rfl
    all_goals
      cases henf : enforce_budget_limit te (get_budget_limit env) <;>
        simp only [henf] <;> split <;> rfl
  · intro c m url u u2
    unfold composer_stage
    split
    · rfl
    · cases m <;> rfl

end VideoGen
